import Mathlib

/-!
# Verification of the Ewald / extended-FNV correction core of pydefect

Shallow embedding of `pydefect/core/correction.py` (plus the helper functions
`defect_center`, `min_distance_under_pbc`, `distance_list` and
`SupercellDftResults.relative_potential` from
`pydefect/core/unitcell_dft_results.py`, which provide the module imported by
`correction.py`).

Numbers are embedded as exact rationals (`ℚ`).  The reference code computes
with IEEE doubles; we idealize float arithmetic as exact arithmetic.  Two
kinds of non-rational operations appear in the source:

* comparisons and integer truncations of square roots
  (`np.linalg.norm(v) < max_length` and `int(max_length / norm)`);
  these are translated *exactly* using the identities
  `‖v‖ < L ↔ 0 < L ∧ ‖v‖² < L²` and
  `⌊L / √s⌋ = Nat.sqrt ⌊L² / s⌋` (for `L ≥ 0 < s`), so no square-root value
  is ever needed;

* transcendental *values* that flow into stored numbers
  (`math.sqrt`, `math.pow`, `x ** 0.17`, `scipy.special.erfc`, `np.exp`,
  `np.cos`, `np.pi`, the physical constants) — these are collected in a
  `FloatOps` record over which every development below is parameterized;
  universally quantified theorems hold for *every* interpretation of these
  operations, and concrete evaluations instantiate them with honest rational
  approximations that are exact at every point actually evaluated.

External collaborators (pymatgen structures/lattices, parsed DFT records,
defect-entry bookkeeping) are modeled as plain input records carrying exactly
the fields the correction code reads, as the specification prescribes
("These supply the engine with: a lattice matrix, …").  The pymatgen
reciprocal-lattice computation is a parameter `pmgReciprocal : Mat3 → Mat3`.
-/

namespace Pydefect

set_option maxRecDepth 40000

attribute [local semireducible] Rat.mul Rat.add Rat.sub Rat.inv

/-- A Cartesian (or fractional) 3-vector of exact rationals. -/
abbrev Vec3 := ℚ × ℚ × ℚ

/-- A 3×3 matrix given as its three rows, as `numpy` arrays of lattice rows. -/
abbrev Mat3 := Vec3 × Vec3 × Vec3

/-- Embedding of `np.dot(a, b)` for 3-vectors. -/
def dot3 (a b : Vec3) : ℚ :=
  a.1 * b.1 + a.2.1 * b.2.1 + a.2.2 * b.2.2

/-- Embedding of `np.cross(a, b)`. -/
def cross3 (a b : Vec3) : Vec3 :=
  (a.2.1 * b.2.2 - a.2.2 * b.2.1,
   a.2.2 * b.1 - a.1 * b.2.2,
   a.1 * b.2.1 - a.2.1 * b.1)

/-- Squared Euclidean norm; `np.linalg.norm(v)` is `√(normSq v)`. -/
def normSq (v : Vec3) : ℚ :=
  v.1 ^ 2 + v.2.1 ^ 2 + v.2.2 ^ 2

/-- Determinant of a row matrix (`np.linalg.det`). -/
def det33 (m : Mat3) : ℚ :=
  dot3 m.1 (cross3 m.2.1 m.2.2)

/-- Embedding of `np.dot(m.transpose(), n)` for an integer triple `n`:
the integer linear combination `n₁·row₁ + n₂·row₂ + n₃·row₃` of the rows,
written out componentwise. -/
def matTVec (m : Mat3) (n : ℤ × ℤ × ℤ) : Vec3 :=
  ((n.1 : ℚ) * m.1.1 + (n.2.1 : ℚ) * m.2.1.1 + (n.2.2 : ℚ) * m.2.2.1,
   (n.1 : ℚ) * m.1.2.1 + (n.2.1 : ℚ) * m.2.1.2.1 + (n.2.2 : ℚ) * m.2.2.2.1,
   (n.1 : ℚ) * m.1.2.2 + (n.2.1 : ℚ) * m.2.1.2.2 + (n.2.2 : ℚ) * m.2.2.2.2)

/-- Embedding of `np.dot(m, v)` (rows dotted with `v`), as used in `min_distance_under_pbc`. -/
def matVec (m : Mat3) (v : Vec3) : Vec3 :=
  (dot3 m.1 v, dot3 m.2.1 v, dot3 m.2.2 v)

/-- Matrix inverse of a row matrix (`np.linalg.inv`), by the adjugate formula.
Meaningful only when `det33 m ≠ 0` (as in the source, where a singular
dielectric tensor is undefined behavior). -/
def inv33 (m : Mat3) : Mat3 :=
  let d := det33 m
  let a := m.1; let b := m.2.1; let c := m.2.2
  ((((b.2.1 * c.2.2 - b.2.2 * c.2.1) / d,
     (a.2.2 * c.2.1 - a.2.1 * c.2.2) / d,
     (a.2.1 * b.2.2 - a.2.2 * b.2.1) / d)),
   (((b.2.2 * c.1 - b.1 * c.2.2) / d,
     (a.1 * c.2.2 - a.2.2 * c.1) / d,
     (a.2.2 * b.1 - a.1 * b.2.2) / d)),
   (((b.1 * c.2.1 - b.2.1 * c.1) / d,
     (a.2.1 * c.1 - a.1 * c.2.1) / d,
     (a.1 * b.2.1 - a.2.1 * b.1) / d)))

/-- Quadratic form `vᵗ·m·v` (`reduce(np.dot, [v.T, m, v])`). -/
def quadForm (m : Mat3) (v : Vec3) : ℚ :=
  dot3 v (matVec m v)

/-- Exact translation of the float comparison `np.linalg.norm(v) < L`:
since `‖v‖ = √(normSq v) ≥ 0`, it holds iff `0 < L` and `normSq v < L²`. -/
def normLt (v : Vec3) (L : ℚ) : Prop :=
  0 < L ∧ normSq v < L ^ 2

instance (v : Vec3) (L : ℚ) : Decidable (normLt v L) := by
  unfold normLt; infer_instance

/-- Binary search for the integer square root: the largest
`k ∈ [lo, lo + 2 ^ fuel)` with `k · k ≤ n`, given `lo · lo ≤ n`.  Written
with structural recursion so that kernel reduction can evaluate it;
`natSqrtSearch_eq_sqrt` below proves it equal to `Nat.sqrt`. -/
def natSqrtSearch (n : ℕ) : ℕ → ℕ → ℕ
  | lo, 0 => lo
  | lo, fuel + 1 =>
    let mid := lo + 2 ^ fuel
    if mid * mid ≤ n then natSqrtSearch n mid fuel
    else natSqrtSearch n lo fuel

/-- Kernel-evaluable integer square root, equal to `Nat.sqrt` on every
`n < 2 ^ 64` (`natSqrtBin_eq_sqrt`). -/
def natSqrtBin (n : ℕ) : ℕ := natSqrtSearch n 0 32

/-- Exact translation of Python's `int(L / √s)` (truncation toward zero) for
`s > 0`, using `⌊x/√s⌋ = Nat.sqrt ⌊x²/s⌋` for `x ≥ 0`. -/
def truncDivSqrt (L s : ℚ) : ℤ :=
  if 0 ≤ L then (natSqrtBin (L ^ 2 / s).floor.toNat : ℤ)
  else -(natSqrtBin (L ^ 2 / s).floor.toNat : ℤ)

/-- Python's `range(lo, hi + 1)` as a list of integers. -/
def intRange (lo hi : ℤ) : List ℤ :=
  (List.range (hi + 1 - lo).toNat).map fun i : ℕ => lo + (i : ℤ)

/-- Embedding of `itertools.product(range(-m₁, m₁+1), range(-m₂, m₂+1), range(-m₃, m₃+1))`
in lexicographic yield order. -/
def boxTriples (m1 m2 m3 : ℤ) : List (ℤ × ℤ × ℤ) :=
  (intRange (-m1) m1).product ((intRange (-m2) m2).product (intRange (-m3) m3))

/-- Embedding of `Ewald._generate_neighbor_lattices(lattice_vectors, max_length,
include_self, shift)`: all `basis·n` with `n` in the per-axis search box
`|nᵢ| ≤ int(max_length/‖rowᵢ‖) + 1`, skipping `n = (0,0,0)` unless
`include_self`, keeping those with `‖basis·n‖ < max_length`, each yielded
as `basis·n + shift`. -/
def generateNeighborLattices (latticeVectors : Mat3) (maxLength : ℚ)
    (includeSelf : Bool) (shift : Vec3) : List Vec3 :=
  let m1 := truncDivSqrt maxLength (normSq latticeVectors.1) + 1
  let m2 := truncDivSqrt maxLength (normSq latticeVectors.2.1) + 1
  let m3 := truncDivSqrt maxLength (normSq latticeVectors.2.2) + 1
  (boxTriples m1 m2 m3).filterMap fun index =>
    if includeSelf = false ∧ index = (0, 0, 0) then none
    else
      let cartVector := matTVec latticeVectors index
      if normLt cartVector maxLength then some (cartVector + shift)
      else none

/-! ## Transcendental float operations

Operations of the Python float runtime whose (irrational) values flow into
stored numbers.  The development is parameterized over an arbitrary
interpretation; concrete evaluations use `floatOpsA` below, whose entries are
exact at every point at which they are actually evaluated. -/

/-- The float operations used by `correction.py`:
`math.sqrt`/`np.sqrt`, `math.pow`/`**`, `scipy.stats.mstats.gmean` of three
numbers, `scipy.special.erfc`, `np.exp`, `np.cos`, `np.pi`,
`scipy.constants.elementary_charge` and `scipy.constants.epsilon_0`. -/
structure FloatOps where
  sqrt : ℚ → ℚ
  pow : ℚ → ℚ → ℚ
  gmean3 : ℚ → ℚ → ℚ → ℚ
  erfc : ℚ → ℚ
  exp : ℚ → ℚ
  cos : ℚ → ℚ
  pi : ℚ
  elementaryCharge : ℚ
  epsilon0 : ℚ

/-- Rational square root, exact whenever the argument is the square of a
rational with numerator and denominator at most `10 ^ 6`, and within `10⁻³`
of the real value on `[0, 10 ^ 6]` generally. -/
def ratSqrt (x : ℚ) : ℚ :=
  (natSqrtBin (x * 10 ^ 6).floor.toNat : ℚ) / 10 ^ 3

/-- Concrete interpretation of the float operations used in evaluations.
`sqrt` is `ratSqrt`; `pow` is exact on the bases/exponents at which the
evaluated inputs reach it (`pow 1 e = 1`); the remaining entries are
placeholders that no evaluated conclusion depends on. -/
def floatOpsA : FloatOps where
  sqrt := ratSqrt
  pow := fun x _ => if x = 1 then 1 else 0
  gmean3 := fun _ _ _ => 0
  erfc := fun _ => 0
  exp := fun _ => 0
  cos := fun _ => 0
  pi := 3141592653589793 / 10 ^ 15
  elementaryCharge := 1602176634 / 10 ^ 28
  epsilon0 := 8854187817 / 10 ^ 21

/-! ## The Ewald parameter store (`class Ewald`) -/

/-- Decidable equality for `Except` results, used to evaluate the modeled
computations on concrete inputs. -/
instance {ε α : Type} [DecidableEq ε] [DecidableEq α] :
    DecidableEq (Except ε α)
  | .error a, .error b =>
    if h : a = b then .isTrue (by rw [h]) else
      .isFalse (by intro hc; cases hc; exact h rfl)
  | .error _, .ok _ => .isFalse (by intro hc; cases hc)
  | .ok _, .error _ => .isFalse (by intro hc; cases hc)
  | .ok a, .ok b =>
    if h : a = b then .isTrue (by rw [h]) else
      .isFalse (by intro hc; cases hc; exact h rfl)

/-- The Python exceptions that the modeled code can raise. -/
inductive PyError where
  | zeroDivision
  | keyError
  | typeError
  | attributeError
deriving DecidableEq, Repr

/-- The attributes stored by `Ewald.__init__`. -/
structure Ewald where
  latticeMatrix : Mat3
  reciprocalLatticeMatrix : Mat3
  dielectricTensor : Mat3
  ewaldParam : ℚ
  prodCutoffFwhm : ℚ
  numRealLattice : ℕ
  numReciprocalLattice : ℕ
deriving DecidableEq, Repr

/-- Embedding of `Ewald.max_r_vector_norm` = P/σ. -/
def Ewald.maxRVectorNorm (e : Ewald) : ℚ :=
  e.prodCutoffFwhm / e.ewaldParam

/-- Embedding of `Ewald.max_g_vector_norm` = 2σP. -/
def Ewald.maxGVectorNorm (e : Ewald) : ℚ :=
  2 * e.ewaldParam * e.prodCutoffFwhm

/-- Embedding of `Ewald.generate_neighbor_lattices(include_self, shift, is_reciprocal)`:
real-lattice domain within `max_r_vector_norm` unless `is_reciprocal`, else
reciprocal domain within `max_g_vector_norm`. -/
def Ewald.generate (e : Ewald) (includeSelf : Bool) (shift : Vec3)
    (isReciprocal : Bool) : List Vec3 :=
  if isReciprocal = false then
    generateNeighborLattices e.latticeMatrix e.maxRVectorNorm includeSelf shift
  else
    generateNeighborLattices e.reciprocalLatticeMatrix e.maxGVectorNorm
      includeSelf shift

/-- Embedding of `Ewald.__init__(lattice_matrix, dielectric_tensor, ewald_param,
prod_cutoff_fwhm, num_real_lattice, num_reciprocal_lattice)`.

`pmgReciprocal` models the external
`pymatgen Lattice(matrix).reciprocal_lattice.matrix` call (2π convention).
When a count is not supplied (`none`), it is computed by draining
`generate_neighbor_lattices`; NOTE the source passes
`include_self=False, is_reciprocal=False` for the *reciprocal* count
(line 69-70 of `correction.py`), which drains the real-lattice domain. -/
def Ewald.fromInit (pmgReciprocal : Mat3 → Mat3) (latticeMatrix : Mat3)
    (dielectricTensor : Mat3) (ewaldParam prodCutoffFwhm : ℚ)
    (numRealLattice numReciprocalLattice : Option ℕ) : Ewald :=
  let store0 : Ewald :=
    { latticeMatrix := latticeMatrix
      reciprocalLatticeMatrix := pmgReciprocal latticeMatrix
      dielectricTensor := dielectricTensor
      ewaldParam := ewaldParam
      prodCutoffFwhm := prodCutoffFwhm
      numRealLattice := 0
      numReciprocalLattice := 0 }
  let nReal := numRealLattice.getD (store0.generate true 0 false).length
  let nRecip :=
    numReciprocalLattice.getD (store0.generate false 0 false).length
  { store0 with numRealLattice := nReal, numReciprocalLattice := nRecip }

/-! ## The parameter optimizer (`Ewald.from_optimization`) -/

/-- The fields of a pymatgen `Structure` read by the correction core:
`structure.lattice.matrix` (rows, Å) and `structure.frac_coords`.
`lattice.volume` and the reciprocal matrix are derived (`volume = |det|`;
the reciprocal matrix via the `pmgReciprocal` parameter). -/
structure PmgStructure where
  latticeMatrix : Mat3
  fracCoords : List Vec3
deriving DecidableEq, Repr

/-- pymatgen `lattice.volume` = |det(matrix)|. -/
def PmgStructure.volume (s : PmgStructure) : ℚ :=
  |det33 s.latticeMatrix|

/-- The iterative loop of `Ewald.from_optimization` (`while True:` in the
source), with an explicit fuel argument forced by the shallow embedding:
`.ok none` means the fuel ran out with the loop still iterating (the source
would simply continue; it has no iteration guard).  Python's
`num_real_lattice / num_reciprocal_lattice` raises `ZeroDivisionError` when
`num_reciprocal_lattice = 0`; this is the `.error .zeroDivision` branch.
The rescaling step `ewald_param *= diff_real_reciprocal ** 0.17` uses
`ops.pow d (17/100)`. -/
def fromOptimizationLoop (ops : FloatOps) (pmgReciprocal : Mat3 → Mat3)
    (realLattice reciprocalLattice dielectricTensor : Mat3)
    (convergence prodCutoffFwhm rootDetDielectric cubeRootVol : ℚ) :
    ℚ → ℕ → Except PyError (Option Ewald)
  | _, 0 => .ok none
  | ewaldParam, fuel + 1 =>
    let ewald := ewaldParam / cubeRootVol * rootDetDielectric
    let maxRVectorNorm := prodCutoffFwhm / ewald
    let numRealLattice :=
      (generateNeighborLattices realLattice maxRVectorNorm true 0).length
    let maxGVectorNorm := 2 * ewald * prodCutoffFwhm
    let numReciprocalLattice :=
      (generateNeighborLattices reciprocalLattice maxGVectorNorm false
        0).length
    if numReciprocalLattice = 0 then .error .zeroDivision
    else
      let diffRealReciprocal :=
        (numRealLattice : ℚ) / (numReciprocalLattice : ℚ)
      if 1 / convergence < diffRealReciprocal ∧
          diffRealReciprocal < convergence then
        .ok (some (Ewald.fromInit pmgReciprocal realLattice dielectricTensor
          ewald prodCutoffFwhm (some numRealLattice)
          (some numReciprocalLattice)))
      else
        fromOptimizationLoop ops pmgReciprocal realLattice reciprocalLattice
          dielectricTensor convergence prodCutoffFwhm rootDetDielectric
          cubeRootVol
          (ewaldParam * ops.pow diffRealReciprocal (17 / 100)) fuel

/-- Embedding of `Ewald.from_optimization(structure, dielectric_tensor, initial_value,
convergence, prod_cutoff_fwhm)`.  The initial guess (when `initial_value` is
`None`) follows the source:
`σ₀ = √(l_g / l_r / 2) · V^{1/3} / √(det ε)` with geometric-mean axis
lengths; axis norms are `ops.sqrt` of the exact squared norms. -/
def Ewald.fromOptimization (ops : FloatOps) (pmgReciprocal : Mat3 → Mat3)
    (structure0 : PmgStructure) (dielectricTensor : Mat3)
    (initialValue : Option ℚ) (convergence prodCutoffFwhm : ℚ) (fuel : ℕ) :
    Except PyError (Option Ewald) :=
  let rootDetDielectric := ops.sqrt (det33 dielectricTensor)
  let realLattice := structure0.latticeMatrix
  let reciprocalLattice := pmgReciprocal structure0.latticeMatrix
  let cubeRootVol := ops.pow structure0.volume (1 / 3)
  let ewaldParam :=
    match initialValue with
    | some v => v
    | none =>
      let lr := ops.gmean3 (ops.sqrt (normSq realLattice.1))
        (ops.sqrt (normSq realLattice.2.1))
        (ops.sqrt (normSq realLattice.2.2))
      let lg := ops.gmean3 (ops.sqrt (normSq reciprocalLattice.1))
        (ops.sqrt (normSq reciprocalLattice.2.1))
        (ops.sqrt (normSq reciprocalLattice.2.2))
      ops.sqrt (lg / lr / 2) * cubeRootVol / rootDetDielectric
  fromOptimizationLoop ops pmgReciprocal realLattice reciprocalLattice
    dielectricTensor convergence prodCutoffFwhm rootDetDielectric cubeRootVol
    ewaldParam fuel

/-! ## Interaction-sphere geometry (`calc_distance_two_planes`,
`calc_max_sphere_radius`) -/

/-- Embedding of `calc_distance_two_planes(lattice_vectors)`:
`distance[i] = |(a_{i-2} × a_{i-1}) · a_i| / ‖a_{i-2} × a_{i-1}‖`
(indices modulo 3, as in the source's `lattice_vectors[i - 2]`). -/
def calcDistanceTwoPlanes (ops : FloatOps) (latticeVectors : Mat3) : Vec3 :=
  let r0 := latticeVectors.1
  let r1 := latticeVectors.2.1
  let r2 := latticeVectors.2.2
  (|dot3 (cross3 r1 r2) r0| / ops.sqrt (normSq (cross3 r1 r2)),
   |dot3 (cross3 r2 r0) r1| / ops.sqrt (normSq (cross3 r2 r0)),
   |dot3 (cross3 r0 r1) r2| / ops.sqrt (normSq (cross3 r0 r1)))

/-- Embedding of `calc_max_sphere_radius(lattice_vectors)` =
`max(calc_distance_two_planes(lattice_vectors)) / 2.0`.  (The source's own
comment says "Maximum radius of a sphere fitting inside the unit cell".) -/
def calcMaxSphereRadius (ops : FloatOps) (latticeVectors : Mat3) : ℚ :=
  let d := calcDistanceTwoPlanes ops latticeVectors
  max (max d.1 d.2.1) d.2.2 / 2

/-- Modelled from the spec: "`r_threshold` = half the shortest inter-plane
distance of the reference cell (the largest sphere that fits inside the
Wigner–Seitz-like cell)".  Identical to `calcMaxSphereRadius` except that it
takes the *minimum* of the three inter-plane distances. -/
def specHalfShortestInterplaneDistance (ops : FloatOps)
    (latticeVectors : Mat3) : ℚ :=
  let d := calcDistanceTwoPlanes ops latticeVectors
  min (min d.1 d.2.1) d.2.2 / 2

/-! ## Distances and externally parsed records
(`pydefect/core/unitcell_dft_results.py`) -/

/-- Embedding of `min_distance_under_pbc(frac1, frac2, lattice_vector_matrix)`: minimum
over the 27 image shifts `index ∈ {-1,0,1}³` of
`‖np.dot(M, index) + np.dot(M, frac2 - frac1)‖`. -/
def minDistanceUnderPbc (ops : FloatOps) (frac1 frac2 : Vec3)
    (latticeVectorMatrix : Mat3) : ℚ :=
  let frac := matVec latticeVectorMatrix (frac2 - frac1)
  let candidate := (boxTriples 1 1 1).map fun index =>
    ops.sqrt (normSq (matVec latticeVectorMatrix
      ((index.1 : ℚ), (index.2.1 : ℚ), (index.2.2 : ℚ)) + frac))
  (candidate.min?).getD 0

/-- Embedding of `distance_list(structure, coords)`. -/
def distanceList (ops : FloatOps) (structure0 : PmgStructure)
    (coords : Vec3) : List ℚ :=
  structure0.fracCoords.map fun host =>
    minDistanceUnderPbc ops host coords structure0.latticeMatrix

/-- The fields of a `DefectEntry` read by the correction core: the defect
charge, the derived `atom_mapping_to_perfect` list (`None` marks inserted
atoms), the inserted-atom indices and the fractional coordinates of the
removed atoms (`removed_atoms.values()`).  Defect-entry bookkeeping is an
external collaborator; the record carries its outputs. -/
structure DefectEntry where
  charge : ℚ
  atomMappingToPerfect : List (Option ℕ)
  insertedAtoms : List ℕ
  removedAtomCoords : List Vec3
deriving DecidableEq, Repr

/-- Embedding of `np.mean` of a list of floats.  `np.mean([])` is NaN, modeled as `none`. -/
def npMean (l : List ℚ) : Option ℚ :=
  if l = [] then none else some (l.sum / (l.length : ℚ))

/-- Componentwise mean, total; callers guarantee a nonempty list. -/
def meanQ (l : List ℚ) : ℚ := l.sum / (l.length : ℚ)

/-- Embedding of `defect_center(defect_entry, structure)`: componentwise mean of the
inserted-atom coordinates (read from `structure.frac_coords`) followed by the
removed-atom coordinates. -/
def defectCenter (entry : DefectEntry) (structure0 : PmgStructure) : Vec3 :=
  let insertedAtomCoords :=
    entry.insertedAtoms.map fun k => structure0.fracCoords.getD k 0
  let defectCoords := insertedAtomCoords ++ entry.removedAtomCoords
  (meanQ (defectCoords.map fun v => v.1),
   meanQ (defectCoords.map fun v => v.2.1),
   meanQ (defectCoords.map fun v => v.2.2))

/-- The fields of `SupercellDftResults` read by the correction core. -/
structure SupercellDftResults where
  finalStructure : PmgStructure
  electrostaticPotential : List ℚ
deriving DecidableEq, Repr

/-- Embedding of `SupercellDftResults.relative_potential(perfect_dft_results,
defect_entry)`: per defect-supercell atom, `None` when unmapped, else the
defect-cell potential minus the mapped perfect-cell potential.  (Indexing is
in-range for well-formed records; out-of-range indices default to `0` here
where Python would raise `IndexError`.) -/
def SupercellDftResults.relativePotential (d : SupercellDftResults)
    (perfect : SupercellDftResults) (entry : DefectEntry) :
    List (Option ℚ) :=
  entry.atomMappingToPerfect.enum.map fun ip =>
    match ip.2 with
    | none => none
    | some pAtom => some (d.electrostaticPotential.getD ip.1 0 -
        perfect.electrostaticPotential.getD pAtom 0)

/-- The field of `UnitcellDftResults` read by the correction core. -/
structure UnitcellDftResults where
  totalDielectricTensor : Mat3
deriving DecidableEq, Repr

/-! ## The `Correction` record -/

/-- Embedding of `class CorrectionMethod(Enum)`. -/
inductive CorrectionMethod where
  | extendedFnv
deriving DecidableEq, Repr

/-- Dictionary keys occurring in `Correction`'s (de)serialization. -/
inductive DictKey where
  | distanceList
  | method
  | ewald
  | diffAvePot
  | alignment
  | manuallySetEnergy
deriving DecidableEq, Repr

/-- The attribute state of a `Correction` object.  `__init__` assigns
`_method`, `_ewald`, `_diff_ave_pot`, `_alignment` and
`_manually_set_energy`; the attribute `_corrected_energy` read by the
`corrected_energy` property is never assigned by any method of the class, so
it is modeled as an `Option` field that every constructor leaves `none`. -/
structure Correction where
  method : CorrectionMethod
  ewald : Ewald
  diffAvePot : Option ℚ
  alignment : Option ℚ
  manuallySetEnergy : Option ℚ
  correctedEnergyAttr : Option ℚ
deriving DecidableEq, Repr

/-- Embedding of `Correction.__init__(method, ewald, diff_ave_pot, alignment,
manually_set_energy=None)`. -/
def Correction.fromInit (method : CorrectionMethod) (ewald : Ewald)
    (diffAvePot alignment : Option ℚ) (manuallySetEnergy : Option ℚ) :
    Correction :=
  { method := method
    ewald := ewald
    diffAvePot := diffAvePot
    alignment := alignment
    manuallySetEnergy := manuallySetEnergy
    correctedEnergyAttr := none }

/-- The `corrected_energy` property: `return self._corrected_energy`, which
raises `AttributeError` whenever the attribute was never assigned. -/
def Correction.correctedEnergy (c : Correction) : Except PyError ℚ :=
  match c.correctedEnergyAttr with
  | none => .error .attributeError
  | some v => .ok v

/-- The *effective* `Correction.as_dict`: the class body defines `as_dict`
twice, and the second definition (lines 368-371, `#TODO: not yet
implemented`) shadows the first, returning the empty dictionary. -/
def Correction.asDict (_ : Correction) : List (DictKey × ℚ) := []

/-- The *effective* `Correction.from_dict`: the second definition
(lines 373-375) shadows the first.  It evaluates `d["distance_list"]`
(raising `KeyError` when the key is absent) and then calls
`cls(d["distance_list"])`, which always raises `TypeError` because
`__init__` requires four positional arguments. -/
def Correction.fromDict (d : List (DictKey × ℚ)) :
    Except PyError Correction :=
  match d.lookup DictKey.distanceList with
  | none => .error .keyError
  | some _ => .error .typeError

/-! ## The extended-FNV model potential and alignment
(`Correction.compute_alignment_by_extended_fnv`) -/

/-- The vectors that actually contribute to an Ewald real-space summation
over `generate_neighbor_lattices(shift=⋯)`: the loop body skips every `v`
with `np.linalg.norm(v) < 1e-8` ("Skip the potential caused by the defect
itself"). -/
def realSummedVectors (e : Ewald) (shift : Vec3) : List Vec3 :=
  (e.generate true shift false).filter fun v =>
    decide (¬ normLt v (1 / 10 ^ 8))

/-- The Ewald real-space part at a given generator shift:
`Σ erfc(σ·√(vᵗε⁻¹v)) / √(vᵗε⁻¹v) / (4π√det ε)` over `realSummedVectors`. -/
def ewaldRealPart (ops : FloatOps) (e : Ewald) (shift : Vec3) : ℚ :=
  let rootDetEpsilon := ops.sqrt (det33 e.dielectricTensor)
  let epsilonInv := inv33 e.dielectricTensor
  let summation := ((realSummedVectors e shift).map fun v =>
    let rootRInvEpsilonR := ops.sqrt (quadForm epsilonInv v)
    ops.erfc (e.ewaldParam * rootRInvEpsilonR) / rootRInvEpsilonR).sum
  summation / (4 * ops.pi * rootDetEpsilon)

/-- The Ewald reciprocal-space part at atomic position `r` (the source uses
the *unit-cell* dielectric tensor here, and `np.cos(np.dot(g, r))` with `r`
the fractional atom position):
`Σ exp(−gᵗεg/4σ²) / (gᵗεg) · cos(g·r) / volume` over the reciprocal
generator without the origin. -/
def ewaldReciprocalPart (ops : FloatOps) (dielectricTensor : Mat3)
    (volume : ℚ) (e : Ewald) (r : Vec3) : ℚ :=
  let summation := ((e.generate false 0 true).map fun g =>
    let gEpsilonG := quadForm dielectricTensor g
    ops.exp (-gEpsilonG / 4 / e.ewaldParam ^ 2) / gEpsilonG *
      ops.cos (dot3 g r)).sum
  summation / volume

/-- The inputs of `Correction.compute_alignment_by_extended_fnv`. -/
structure CorrectionInputs where
  defectEntry : DefectEntry
  defectDft : SupercellDftResults
  perfectDft : SupercellDftResults
  unitcellDft : UnitcellDftResults
  ewald : Ewald
deriving Repr

/-- Embedding of `diff_ep = defect_dft.relative_potential(perfect_dft, defect_entry)`. -/
def CorrectionInputs.diffEp (inp : CorrectionInputs) : List (Option ℚ) :=
  inp.defectDft.relativePotential inp.perfectDft inp.defectEntry

/-- Embedding of `atomic_position_without_defect`: fractional coordinates of the mapped
atoms of the defect supercell. -/
def CorrectionInputs.atomicPositionWithoutDefect (inp : CorrectionInputs) :
    List Vec3 :=
  inp.defectEntry.atomMappingToPerfect.enum.filterMap fun ij =>
    if ij.2.isSome then
      some (inp.defectDft.finalStructure.fracCoords.getD ij.1 0)
    else none

/-- Embedding of `volume = perfect_structure.lattice.volume`. -/
def CorrectionInputs.volume (inp : CorrectionInputs) : ℚ :=
  inp.perfectDft.finalStructure.volume

/-- Embedding of `defect_coords = defect_center(defect_entry, defect_dft.final_structure)`. -/
def CorrectionInputs.defectCoords (inp : CorrectionInputs) : Vec3 :=
  defectCenter inp.defectEntry inp.defectDft.finalStructure

/-- Embedding of `distances_from_defect = distance_list(defect_dft.final_structure,
defect_coords)`. -/
def CorrectionInputs.distancesFromDefect (ops : FloatOps)
    (inp : CorrectionInputs) : List ℚ :=
  distanceList ops inp.defectDft.finalStructure inp.defectCoords

/-- Embedding of `coeff = charge * elementary_charge * 1.0e10 / epsilon_0` (volt). -/
def CorrectionInputs.coeff (ops : FloatOps) (inp : CorrectionInputs) : ℚ :=
  inp.defectEntry.charge * ops.elementaryCharge * 10 ^ 10 / ops.epsilon0

/-- Embedding of `diff_pot = -0.25 / volume / ewald_param ** 2`. -/
def CorrectionInputs.diffPot (inp : CorrectionInputs) : ℚ :=
  -(1 / 4) / inp.volume / inp.ewald.ewaldParam ^ 2

/-- The `model_pot` list: initialized as `[None] * len(list(
ewald.generate_neighbor_lattices()))` and then assigned, for each mapped
atom `i`, the value
`(real_part + reciprocal_part + diff_pot) * coeff` with the real part
shifted by `r_i − defect_coords` and the reciprocal part evaluated at `r_i`. -/
def CorrectionInputs.modelPot (ops : FloatOps) (inp : CorrectionInputs) :
    List (Option ℚ) :=
  let positions := inp.atomicPositionWithoutDefect
  (List.range (inp.ewald.generate true 0 false).length).map fun i =>
    if i < positions.length then
      let r := positions.getD i 0
      some ((ewaldRealPart ops inp.ewald (r - inp.defectCoords) +
        ewaldReciprocalPart ops inp.unitcellDft.totalDielectricTensor
          inp.volume inp.ewald r + inp.diffPot) * inp.coeff ops)
    else none

/-- Embedding of `self_pot = ewald_param / (2π·√(π·det ε))`. -/
def CorrectionInputs.selfPot (ops : FloatOps) (inp : CorrectionInputs) : ℚ :=
  inp.ewald.ewaldParam /
    (2 * ops.pi * ops.sqrt (ops.pi * det33 inp.ewald.dielectricTensor))

/-- Embedding of `model_pot_defect_site = (real_part + reciprocal_part + diff_pot +
self_pot) * coeff` (both parts at zero shift / zero position). -/
def CorrectionInputs.modelPotDefectSite (ops : FloatOps)
    (inp : CorrectionInputs) : ℚ :=
  (ewaldRealPart ops inp.ewald 0 +
    ewaldReciprocalPart ops inp.unitcellDft.totalDielectricTensor inp.volume
      inp.ewald 0 + inp.diffPot + inp.selfPot ops) * inp.coeff ops

/-- Embedding of `lattice_energy = model_pot_defect_site * charge / 2`. -/
def CorrectionInputs.latticeEnergy (ops : FloatOps)
    (inp : CorrectionInputs) : ℚ :=
  inp.modelPotDefectSite ops * inp.defectEntry.charge / 2

/-- Embedding of `distance_threshold = calc_max_sphere_radius(axis)` with `axis` the
perfect-supercell lattice matrix. -/
def CorrectionInputs.distanceThreshold (ops : FloatOps)
    (inp : CorrectionInputs) : ℚ :=
  calcMaxSphereRadius ops inp.perfectDft.finalStructure.latticeMatrix

/-- The triples `(d, a, m)` of `zip(distances_from_defect, diff_ep,
model_pot)` selected by `d > distance_threshold`. -/
def CorrectionInputs.potDiffEntries (ops : FloatOps)
    (inp : CorrectionInputs) : List (ℚ × Option ℚ × Option ℚ) :=
  (((inp.distancesFromDefect ops).zip ((inp.diffEp).zip
    (inp.modelPot ops)))).filter fun t =>
      decide (t.1 > inp.distanceThreshold ops)

/-- Embedding of `pot_diff`: the selected `a - m` values.  (Python would raise
`TypeError` on a `None` operand; `CorrectionInputs.compute` checks this.) -/
def CorrectionInputs.potDiff (ops : FloatOps) (inp : CorrectionInputs) :
    List ℚ :=
  (inp.potDiffEntries ops).map fun t => t.2.1.getD 0 - t.2.2.getD 0

/-- Embedding of `ave_pot_diff = np.mean(pot_diff)`; NaN (empty mean) is `none`. -/
def CorrectionInputs.avePotDiff (ops : FloatOps) (inp : CorrectionInputs) :
    Option ℚ :=
  npMean (inp.potDiff ops)

/-- Embedding of `alignment = -1.0 * ave_pot_diff * charge`; NaN propagates. -/
def CorrectionInputs.alignmentTerm (ops : FloatOps)
    (inp : CorrectionInputs) : Option ℚ :=
  (inp.avePotDiff ops).map fun x => -1 * x * inp.defectEntry.charge

/-- Embedding of `Correction.compute_alignment_by_extended_fnv(defect_entry, defect_dft,
perfect_dft, unitcell_dft, ewald)`: raises `TypeError` when a selected
`(a, m)` pair contains `None`, otherwise returns
`cls(CorrectionMethod.extended_fnv, ewald, ave_pot_diff, alignment)`. -/
def CorrectionInputs.compute (ops : FloatOps) (inp : CorrectionInputs) :
    Except PyError Correction :=
  if (inp.potDiffEntries ops).any
      (fun t => decide (t.2.1 = none ∨ t.2.2 = none)) then
    .error .typeError
  else
    .ok (Correction.fromInit .extendedFnv inp.ewald (inp.avePotDiff ops)
      (inp.alignmentTerm ops) none)

/-- The per-axis search box actually enumerated by
`_generate_neighbor_lattices`. -/
def inSearchBox (m : Mat3) (L : ℚ) (n : ℤ × ℤ × ℤ) : Prop :=
  |n.1| ≤ truncDivSqrt L (normSq m.1) + 1 ∧
  |n.2.1| ≤ truncDivSqrt L (normSq m.2.1) + 1 ∧
  |n.2.2| ≤ truncDivSqrt L (normSq m.2.2) + 1

instance (m : Mat3) (L : ℚ) (n : ℤ × ℤ × ℤ) : Decidable (inSearchBox m L n) := by
  unfold inSearchBox; infer_instance

/-- The source's documented precondition "angles between any two axes are
assumed to be between 60 and 120 deg", i.e. |cos θᵢⱼ| ≤ 1/2 for the three
row pairs, squared to avoid square roots. -/
def anglesWithin60To120 (m : Mat3) : Prop :=
  4 * dot3 m.1 m.2.1 ^ 2 ≤ normSq m.1 * normSq m.2.1 ∧
  4 * dot3 m.1 m.2.2 ^ 2 ≤ normSq m.1 * normSq m.2.2 ∧
  4 * dot3 m.2.1 m.2.2 ^ 2 ≤ normSq m.2.1 * normSq m.2.2

instance (m : Mat3) : Decidable (anglesWithin60To120 m) := by
  unfold anglesWithin60To120; infer_instance

/-! ## Concrete inputs used in evaluations and witnesses -/

/-- Diagonal row matrix. -/
def diagMat (a b c : ℚ) : Mat3 := ((a, 0, 0), ((0, b, 0), (0, 0, c)))

/-- The identity basis: a 1 Å cubic lattice, inter-axis angles all 90°. -/
def latticeI3 : Mat3 := diagMat 1 1 1

/-- diag(1, 1, 4) Å. -/
def latticeDiag114 : Mat3 := diagMat 1 1 4

/-- A basis with all three inter-axis angles inside 60°–120° and
determinant 245 whose rows nearly cancel: row₀·40 + row₁ + row₂ = (0,1,7). -/
def latticeNearDegenerate : Mat3 := ((1, 0, 0), ((-20, 35, 0), (-20, -34, 7)))

/-- A pymatgen-reciprocal-lattice stand-in returning diag(1000,1000,1000). -/
def pmgReciprocalA : Mat3 → Mat3 := fun _ => diagMat 1000 1000 1000

/-- A pymatgen-reciprocal-lattice stand-in returning diag(48,700,700). -/
def pmgReciprocalB : Mat3 → Mat3 := fun _ => diagMat 48 700 700

/-- A pymatgen-reciprocal-lattice stand-in returning diag(6,6,6)
(close to the true 2π·I of the identity lattice). -/
def pmgReciprocalC : Mat3 → Mat3 := fun _ => diagMat 6 6 6

/-- An Ewald store built by `__init__` with σ = 25, P = 25 on the identity
lattice, with both vector counts computed by draining the generator. -/
def ewaldStoreA : Ewald :=
  Ewald.fromInit pmgReciprocalA latticeI3 latticeI3 25 25 none none

/-- The Ewald store returned by the C3 optimization witness run. -/
def ewaldOptimizedB : Ewald :=
  Ewald.fromInit pmgReciprocalB latticeI3 latticeI3 (25 / 2) 25
    (some 27) (some 26)

/-- The identity-lattice structure with no atoms. -/
def structureI3 : PmgStructure := { latticeMatrix := latticeI3, fracCoords := [] }

/-- A generator shift of norm 10⁻⁹, below the 10⁻⁸ skip threshold of the
real-space summation. -/
def shiftTiny : Vec3 := (1 / 10 ^ 9, 0, 0)

/-- Correction inputs whose single mapped atom sits exactly at distance 1/2
from the defect center, equal to the interaction-sphere radius of the cubic
cell, so the `d > r_threshold` filter selects no atom. -/
def inputsAllInsideCutoff : CorrectionInputs :=
  ⟨⟨1, [some 0], [], [(0, 0, 0)]⟩,
   ⟨⟨latticeI3, [(1 / 2, 0, 0)]⟩, [2]⟩,
   ⟨⟨latticeI3, [(1 / 2, 0, 0), (0, 0, 0)]⟩, [1, 5]⟩,
   ⟨latticeI3⟩, ewaldStoreA⟩

/-- Correction inputs with zero defect charge and an empty atom list, so the
`pot_diff` list is empty. -/
def inputsNoAtomsZeroCharge : CorrectionInputs :=
  ⟨⟨0, [], [], [(0, 0, 0)]⟩,
   ⟨⟨latticeI3, []⟩, []⟩,
   ⟨⟨latticeI3, []⟩, []⟩,
   ⟨latticeI3⟩, ewaldStoreA⟩

/-- Correction inputs with zero defect charge and one mapped atom at
fractional (1/2, 1/2, 0), beyond the interaction sphere. -/
def inputsZeroChargeOneOutside : CorrectionInputs :=
  ⟨⟨0, [some 0], [], [(0, 0, 0)]⟩,
   ⟨⟨latticeI3, [(1 / 2, 1 / 2, 0)]⟩, [2]⟩,
   ⟨⟨latticeI3, [(1 / 2, 1 / 2, 0)]⟩, [1]⟩,
   ⟨latticeI3⟩, ewaldStoreA⟩

/-! ## Lemmas about the lattice-vector generator -/

theorem natSqrtSearch_eq_sqrt (n : ℕ) :
    ∀ fuel lo : ℕ, lo ≤ Nat.sqrt n → Nat.sqrt n < lo + 2 ^ fuel →
      natSqrtSearch n lo fuel = Nat.sqrt n := by
  intro fuel
  induction fuel with
  | zero =>
    intro lo h1 h2
    simp only [natSqrtSearch, pow_zero] at *
    omega
  | succ f ih =>
    intro lo h1 h2
    have hsplit : 2 ^ (f + 1) = 2 ^ f + 2 ^ f := by rw [pow_succ]; ring
    rw [natSqrtSearch]
    by_cases hm : (lo + 2 ^ f) * (lo + 2 ^ f) ≤ n
    · rw [if_pos hm]
      exact ih _ (Nat.le_sqrt.mpr hm) (by omega)
    · rw [if_neg hm]
      refine ih _ h1 ?_
      have : ¬(lo + 2 ^ f ≤ Nat.sqrt n) := fun hle => hm (Nat.le_sqrt.mp hle)
      omega

theorem natSqrtBin_eq_sqrt (n : ℕ) (h : n < 2 ^ 64) :
    natSqrtBin n = Nat.sqrt n := by
  refine natSqrtSearch_eq_sqrt n 32 0 (Nat.zero_le _) ?_
  have : Nat.sqrt n < 2 ^ 32 := by
    rw [Nat.sqrt_lt]
    calc n < 2 ^ 64 := h
    _ = 2 ^ 32 * 2 ^ 32 := by norm_num
  omega

theorem mem_intRange {lo hi k : ℤ} : k ∈ intRange lo hi ↔ lo ≤ k ∧ k ≤ hi := by
  simp only [intRange, List.mem_map, List.mem_range]
  constructor
  · rintro ⟨i, hi', rfl⟩; omega
  · intro h; exact ⟨(k - lo).toNat, by omega, by omega⟩

theorem intRange_nodup (lo hi : ℤ) : (intRange lo hi).Nodup :=
  (List.nodup_range _).map fun a b h => by omega

theorem mem_boxTriples {m1 m2 m3 : ℤ} {n : ℤ × ℤ × ℤ} :
    n ∈ boxTriples m1 m2 m3 ↔ |n.1| ≤ m1 ∧ |n.2.1| ≤ m2 ∧ |n.2.2| ≤ m3 := by
  obtain ⟨i, j, k⟩ := n
  simp only [boxTriples, List.pair_mem_product, mem_intRange, abs_le]

theorem boxTriples_nodup (m1 m2 m3 : ℤ) : (boxTriples m1 m2 m3).Nodup :=
  (intRange_nodup _ _).product ((intRange_nodup _ _).product (intRange_nodup _ _))

theorem dot3_cross3_matTVec_fst (m : Mat3) (n : ℤ × ℤ × ℤ) :
    dot3 (cross3 m.2.1 m.2.2) (matTVec m n) = (n.1 : ℚ) * det33 m := by
  obtain ⟨⟨a1, a2, a3⟩, ⟨b1, b2, b3⟩, ⟨c1, c2, c3⟩⟩ := m
  simp only [dot3, cross3, matTVec, det33]
  ring

theorem dot3_cross3_matTVec_snd (m : Mat3) (n : ℤ × ℤ × ℤ) :
    dot3 (cross3 m.2.2 m.1) (matTVec m n) = (n.2.1 : ℚ) * det33 m := by
  obtain ⟨⟨a1, a2, a3⟩, ⟨b1, b2, b3⟩, ⟨c1, c2, c3⟩⟩ := m
  simp only [dot3, cross3, matTVec, det33]
  ring

theorem dot3_cross3_matTVec_trd (m : Mat3) (n : ℤ × ℤ × ℤ) :
    dot3 (cross3 m.1 m.2.1) (matTVec m n) = (n.2.2 : ℚ) * det33 m := by
  obtain ⟨⟨a1, a2, a3⟩, ⟨b1, b2, b3⟩, ⟨c1, c2, c3⟩⟩ := m
  simp only [dot3, cross3, matTVec, det33]
  ring

/-- A basis with nonzero determinant sends distinct integer triples to
distinct Cartesian vectors. -/
theorem matTVec_injective {m : Mat3} (hdet : det33 m ≠ 0) :
    Function.Injective (matTVec m) := by
  intro n n' h
  have h1 := congrArg (fun v => dot3 (cross3 m.2.1 m.2.2) v) h
  have h2 := congrArg (fun v => dot3 (cross3 m.2.2 m.1) v) h
  have h3 := congrArg (fun v => dot3 (cross3 m.1 m.2.1) v) h
  simp only [dot3_cross3_matTVec_fst, dot3_cross3_matTVec_snd,
    dot3_cross3_matTVec_trd] at h1 h2 h3
  have e1 : (n.1 : ℚ) = n'.1 := mul_right_cancel₀ hdet h1
  have e2 : (n.2.1 : ℚ) = n'.2.1 := mul_right_cancel₀ hdet h2
  have e3 : (n.2.2 : ℚ) = n'.2.2 := mul_right_cancel₀ hdet h3
  have : n.1 = n'.1 := by exact_mod_cast e1
  have : n.2.1 = n'.2.1 := by exact_mod_cast e2
  have : n.2.2 = n'.2.2 := by exact_mod_cast e3
  obtain ⟨x, y, z⟩ := n; obtain ⟨x', y', z'⟩ := n'
  simp_all

theorem mem_generateNeighborLattices {m : Mat3} {L : ℚ} {includeSelf : Bool}
    {shift v : Vec3} :
    v ∈ generateNeighborLattices m L includeSelf shift ↔
      ∃ n, inSearchBox m L n ∧ (includeSelf = true ∨ n ≠ (0, 0, 0)) ∧
        normLt (matTVec m n) L ∧ v = matTVec m n + shift := by
  simp only [generateNeighborLattices, List.mem_filterMap, mem_boxTriples]
  constructor
  · rintro ⟨n, hbox, hf⟩
    by_cases hself : includeSelf = false ∧ n = (0, 0, 0)
    · rw [if_pos hself] at hf; cases hf
    · rw [if_neg hself] at hf
      split_ifs at hf with hnorm
      · cases hf
        refine ⟨n, hbox, ?_, hnorm, rfl⟩
        cases hIs : includeSelf with
        | true => exact Or.inl rfl
        | false => exact Or.inr fun hn => hself ⟨hIs, hn⟩
  · rintro ⟨n, hbox, hsel, hnorm, rfl⟩
    refine ⟨n, hbox, ?_⟩
    have hne : ¬(includeSelf = false ∧ n = (0, 0, 0)) := by
      rcases hsel with h | h
      · rintro ⟨h', -⟩; rw [h] at h'; cases h'
      · rintro ⟨-, h'⟩; exact h h'
    rw [if_neg hne, if_pos hnorm]

theorem generateNeighborLattices_nodup {m : Mat3} (hdet : det33 m ≠ 0)
    (L : ℚ) (includeSelf : Bool) (shift : Vec3) :
    (generateNeighborLattices m L includeSelf shift).Nodup := by
  refine List.Nodup.filterMap ?_ (boxTriples_nodup _ _ _)
  intro a a' b hb hb'
  have key : ∀ c : ℤ × ℤ × ℤ,
      b ∈ (if includeSelf = false ∧ c = (0, 0, 0) then none
        else if normLt (matTVec m c) L then some (matTVec m c + shift)
        else none) → b = matTVec m c + shift := by
    intro c hc
    split_ifs at hc with h1 h2
    · cases hc
    · exact (Option.mem_some_iff.mp hc).symm
    · cases hc
  have eb := key a hb
  have eb' := key a' hb'
  have : matTVec m a + shift = matTVec m a' + shift := by rw [← eb, ← eb']
  exact matTVec_injective hdet (add_right_cancel this)

/-! ## Claim theorems -/

/-- C4, counterexample.  The claim "the generator produces exactly the set of
`basis·n + shift` with `‖basis·n + shift‖ < max_norm`, for every basis with
inter-axis angles within 60°–120°" fails twice on the code:
(a) the norm test is applied to the *unshifted* vector, so with the identity
basis, `max_norm = 1/2` and shift `(10,0,0)` the generator yields `(10,0,0)`
whose norm is not below `1/2`;
(b) the per-axis search box can miss interior vectors even under the angle
precondition: for `latticeNearDegenerate` (angles within 60°–120°,
determinant 245) the vector `basis·(40,1,1) = (0,1,7)` has norm √50 < 10 but
is never yielded at `max_norm = 10`, `shift = 0`. -/
theorem generator_exact_set_claim_counterexample :
    (anglesWithin60To120 latticeI3 ∧
      generateNeighborLattices latticeI3 (1 / 2) true (10, 0, 0) =
        [(10, 0, 0)] ∧
      ¬ normLt ((10 : ℚ), 0, 0) (1 / 2)) ∧
    (anglesWithin60To120 latticeNearDegenerate ∧
      det33 latticeNearDegenerate ≠ 0 ∧
      matTVec latticeNearDegenerate (40, 1, 1) = ((0 : ℚ), 1, 7) ∧
      normLt (matTVec latticeNearDegenerate (40, 1, 1)) 10 ∧
      ((0 : ℚ), 1, 7) ∉
        generateNeighborLattices latticeNearDegenerate 10 true 0) := by
  decide

/-- C4 (amended).  For every basis with nonzero determinant, every max norm,
`include_self` flag and Cartesian shift, the generator produces exactly the
vectors `basis·n + shift` over the integer triples `n` of its per-axis
search box `|nᵢ| ≤ int(max_norm/‖basisᵢ‖) + 1` whose *unshifted* Cartesian
norm `‖basis·n‖` is strictly below the max norm, with `n = (0,0,0)`
participating iff `include_self` is true, and each such vector is produced
exactly once. -/
theorem generator_box_membership_and_nodup (m : Mat3) (L : ℚ)
    (includeSelf : Bool) (shift : Vec3) (hdet : det33 m ≠ 0) :
    (∀ v, v ∈ generateNeighborLattices m L includeSelf shift ↔
      ∃ n, inSearchBox m L n ∧ (includeSelf = true ∨ n ≠ (0, 0, 0)) ∧
        normLt (matTVec m n) L ∧ v = matTVec m n + shift) ∧
    (generateNeighborLattices m L includeSelf shift).Nodup :=
  ⟨fun _ => mem_generateNeighborLattices,
   generateNeighborLattices_nodup hdet L includeSelf shift⟩

/-- Witness for the amended C4 theorem at the identity basis. -/
theorem generator_box_membership_and_nodup_witness :
    ((((10 : ℚ), 0, 0) ∈
        generateNeighborLattices latticeI3 (3 / 2) true (10, 0, 0) ↔
      ∃ n, inSearchBox latticeI3 (3 / 2) n ∧ (true = true ∨ n ≠ (0, 0, 0)) ∧
        normLt (matTVec latticeI3 n) (3 / 2) ∧
        ((10 : ℚ), 0, 0) = matTVec latticeI3 n + (10, 0, 0)) ∧
    (generateNeighborLattices latticeI3 (3 / 2) true (10, 0, 0)).Nodup) :=
  ⟨(generator_box_membership_and_nodup latticeI3 (3 / 2) true (10, 0, 0)
      (by decide)).1 _,
   (generator_box_membership_and_nodup latticeI3 (3 / 2) true (10, 0, 0)
      (by decide)).2⟩

/-- C2.  `Ewald.__init__` on the identity lattice with σ = P = 25 memoizes
the real-vector count as the full drain of the generator over the real
domain within `r_max` (here 1), but memoizes the *reciprocal* count by
draining the generator with `is_reciprocal=False` — i.e. again over the real
domain within `r_max`, origin excluded (0 vectors) — instead of over the
reciprocal domain within `g_max = 1250`, which contains 6 vectors. -/
theorem init_reciprocal_count_drains_real_domain :
    ewaldStoreA.numRealLattice =
      (generateNeighborLattices ewaldStoreA.latticeMatrix
        ewaldStoreA.maxRVectorNorm true 0).length ∧
    ewaldStoreA.numReciprocalLattice =
      (generateNeighborLattices ewaldStoreA.latticeMatrix
        ewaldStoreA.maxRVectorNorm false 0).length ∧
    ewaldStoreA.numReciprocalLattice ≠
      (generateNeighborLattices ewaldStoreA.reciprocalLatticeMatrix
        ewaldStoreA.maxGVectorNorm false 0).length := by
  decide

/-- C5.  `calc_max_sphere_radius` halves the *largest* inter-plane distance:
on diag(1,1,4) it returns 2, while half the shortest inter-plane distance
(the inscribed-sphere radius named by the spec, and by the function's own
comment) is 1/2. -/
theorem max_sphere_radius_uses_largest_interplane_distance :
    calcMaxSphereRadius floatOpsA latticeDiag114 = 2 ∧
    specHalfShortestInterplaneDistance floatOpsA latticeDiag114 = 1 / 2 ∧
    calcMaxSphereRadius floatOpsA latticeDiag114 ≠
      specHalfShortestInterplaneDistance floatOpsA latticeDiag114 := by
  decide

/-- C1.  The optimizer has no iteration guard and no `ConvergenceError`:
with `initial_value = -1` on the identity lattice (unit dielectric) both
cutoffs are negative, both vector counts are 0, and the very first
iteration raises `ZeroDivisionError` — for every fuel bound. -/
theorem optimizer_raises_zeroDivision_without_guard :
    ∀ fuel : ℕ,
      Ewald.fromOptimization floatOpsA pmgReciprocalC structureI3 latticeI3
        (some (-1)) (21 / 20) 25 (fuel + 1) = .error .zeroDivision :=
  fun _ => rfl

/-- C7.  The effective `Correction.as_dict` (second definition in the class
body, which shadows the first) returns the empty dictionary, and the
effective `Correction.from_dict` reads the missing key `"distance_list"`:
the round trip always raises `KeyError` instead of reproducing the record. -/
theorem correction_dict_round_trip_fails :
    ∀ c : Correction,
      Correction.fromDict (Correction.asDict c) = .error .keyError :=
  fun _ => rfl

/-- C10.  Every `Correction` produced by `__init__` (and `from_dict`, which
never returns successfully) leaves `_corrected_energy` unassigned, so the
`corrected_energy` property raises `AttributeError`. -/
theorem corrected_energy_always_attributeError (c : Correction)
    (h : (∃ method ewald diffAvePot alignment manuallySetEnergy,
        c = Correction.fromInit method ewald diffAvePot alignment
          manuallySetEnergy) ∨
      ∃ d, Correction.fromDict d = .ok c) :
    c.correctedEnergy = .error .attributeError := by
  rcases h with ⟨m, e, dp, al, ms, rfl⟩ | ⟨d, hd⟩
  · rfl
  · rcases hl : d.lookup DictKey.distanceList with - | v <;>
      simp [Correction.fromDict, hl] at hd

/-- Witness for C10 at a concrete `__init__` call. -/
theorem corrected_energy_always_attributeError_witness :
    (Correction.fromInit .extendedFnv ewaldStoreA none none
      none).correctedEnergy = .error .attributeError :=
  corrected_energy_always_attributeError _
    (Or.inl ⟨.extendedFnv, ewaldStoreA, none, none, none, rfl⟩)

/-- C8, counterexample.  At the nonzero site displacement `(10⁻⁹, 0, 0)` the
generator yields the single vector `(10⁻⁹, 0, 0)`, and the real-space loop
drops it (its norm is below the `1e-8` skip threshold), although the claim
says no summand is dropped when `r ≠ 0`. -/
theorem real_sum_drops_vector_at_nonzero_shift :
    shiftTiny ≠ 0 ∧
    ewaldStoreA.generate true shiftTiny false = [shiftTiny] ∧
    realSummedVectors ewaldStoreA shiftTiny = [] := by
  decide

/-- C8 (amended).  For every site shift, the real-space summation runs over
exactly the generated vectors whose norm is at least `1e-8`; at the defect
site (zero shift), provided every nonzero generated lattice vector has norm
at least `1e-8`, this excludes exactly the zero vector. -/
theorem real_sum_vectors_characterization (e : Ewald) (shift v : Vec3)
    (hmin : ∀ w ∈ e.generate true (0 : Vec3) false,
      w ≠ 0 → ¬ normLt w (1 / 10 ^ 8)) :
    (v ∈ realSummedVectors e shift ↔
      v ∈ e.generate true shift false ∧ ¬ normLt v (1 / 10 ^ 8)) ∧
    realSummedVectors e 0 =
      (e.generate true 0 false).filter fun w => decide (w ≠ 0) := by
  constructor
  · simp [realSummedVectors, List.mem_filter]
  · unfold realSummedVectors
    refine List.filter_congr ?_
    intro w hw
    have h0 : normLt (0 : Vec3) (1 / 10 ^ 8) := by
      constructor
      · norm_num
      · norm_num [normSq]
    simp only [decide_eq_decide]
    constructor
    · exact fun hnot heq => hnot (heq ▸ h0)
    · exact fun hne => hmin w hw hne

/-- Witness for the amended C8 theorem. -/
theorem real_sum_vectors_characterization_witness :
    (((0 : Vec3)) ∈ realSummedVectors ewaldStoreA 0 ↔
      ((0 : Vec3)) ∈ ewaldStoreA.generate true (0 : Vec3) false ∧
        ¬ normLt 0 (1 / 10 ^ 8)) ∧
    realSummedVectors ewaldStoreA 0 =
      (ewaldStoreA.generate true 0 false).filter fun w => decide (w ≠ 0) :=
  real_sum_vectors_characterization ewaldStoreA 0 0 (by decide)

/-- C6.  On inputs whose only mapped atom lies at distance 1/2 = r_threshold
from the defect center (so no atom is *beyond* the threshold), the assembler
does not raise any error: it returns a `Correction` whose average potential
difference and alignment are NaN (`np.mean([])`, modeled as `none`).  No
`NoAtomsOutsideCutoffError` exists anywhere in the code. -/
theorem no_atoms_outside_cutoff_returns_nan :
    inputsAllInsideCutoff.potDiffEntries floatOpsA = [] ∧
    inputsAllInsideCutoff.avePotDiff floatOpsA = none ∧
    inputsAllInsideCutoff.compute floatOpsA =
      .ok (Correction.fromInit .extendedFnv ewaldStoreA none none none) := by
  decide

/-- C9, counterexample.  With zero defect charge but no atom beyond the
cutoff, the lattice energy is 0 but the alignment term is NaN (`none`), not
exactly 0: `-1.0 * np.mean([]) * 0` is NaN. -/
theorem zero_charge_alignment_nan :
    inputsNoAtomsZeroCharge.defectEntry.charge = 0 ∧
    inputsNoAtomsZeroCharge.latticeEnergy floatOpsA = 0 ∧
    inputsNoAtomsZeroCharge.alignmentTerm floatOpsA ≠ some 0 := by
  decide

/-- C9 (amended).  For zero defect charge, every computed model-potential
entry and the point-charge lattice energy are exactly 0, and the alignment
energy is exactly 0 whenever at least one atom passes the distance filter
(otherwise the average and alignment are NaN). -/
theorem zero_charge_model_potential_zero (ops : FloatOps)
    (inp : CorrectionInputs) (hq : inp.defectEntry.charge = 0) :
    (∀ p ∈ inp.modelPot ops, ∀ x : ℚ, p = some x → x = 0) ∧
    inp.latticeEnergy ops = 0 ∧
    (inp.potDiff ops ≠ [] → inp.alignmentTerm ops = some 0) := by
  have hc : inp.coeff ops = 0 := by
    simp [CorrectionInputs.coeff, hq]
  refine ⟨?_, ?_, ?_⟩
  · intro p hp x hx
    simp only [CorrectionInputs.modelPot, List.mem_map] at hp
    obtain ⟨i, -, rfl⟩ := hp
    split_ifs at hx with h
    rw [Option.some_inj] at hx
    rw [← hx, hc, mul_zero]
  · simp [CorrectionInputs.latticeEnergy, hq]
  · intro hne
    unfold CorrectionInputs.alignmentTerm CorrectionInputs.avePotDiff npMean
    rw [if_neg hne]
    simp [hq]

/-- Witness for the amended C9 theorem. -/
theorem zero_charge_model_potential_zero_witness :
    inputsZeroChargeOneOutside.latticeEnergy floatOpsA = 0 ∧
    inputsZeroChargeOneOutside.alignmentTerm floatOpsA = some 0 :=
  ⟨(zero_charge_model_potential_zero floatOpsA inputsZeroChargeOneOutside
      rfl).2.1,
   (zero_charge_model_potential_zero floatOpsA inputsZeroChargeOneOutside
      rfl).2.2 (by decide)⟩

/-- Helper: every state successfully returned by the optimization loop has
its count ratio strictly inside the convergence band and its stored counts
equal to full generator drains at the stored σ. -/
theorem fromOptimizationLoop_ok_inv (ops : FloatOps)
    (pmgReciprocal : Mat3 → Mat3)
    (realLattice reciprocalLattice dielectricTensor : Mat3)
    (convergence prodCutoffFwhm rootDet cubeRootVol : ℚ) :
    ∀ (fuel : ℕ) (ewaldParam : ℚ) (st : Ewald),
      fromOptimizationLoop ops pmgReciprocal realLattice reciprocalLattice
        dielectricTensor convergence prodCutoffFwhm rootDet cubeRootVol
        ewaldParam fuel = .ok (some st) →
      (1 / convergence <
          (st.numRealLattice : ℚ) / (st.numReciprocalLattice : ℚ) ∧
        (st.numRealLattice : ℚ) / (st.numReciprocalLattice : ℚ) <
          convergence) ∧
      st.latticeMatrix = realLattice ∧
      st.reciprocalLatticeMatrix = pmgReciprocal realLattice ∧
      st.prodCutoffFwhm = prodCutoffFwhm ∧
      st.numRealLattice =
        (generateNeighborLattices realLattice
          (prodCutoffFwhm / st.ewaldParam) true 0).length ∧
      st.numReciprocalLattice =
        (generateNeighborLattices reciprocalLattice
          (2 * st.ewaldParam * prodCutoffFwhm) false 0).length := by
  intro fuel
  induction fuel with
  | zero =>
    intro σ st h
    simp [fromOptimizationLoop] at h
  | succ n ih =>
    intro σ st h
    rw [fromOptimizationLoop] at h
    split at h
    next => cases h
    next =>
      dsimp only at h
      split at h
      next hband =>
        simp only [Except.ok.injEq, Option.some.injEq] at h
        subst h
        refine ⟨hband, ?_, ?_, ?_, ?_, ?_⟩ <;> simp [Ewald.fromInit]
      next => exact ih _ st h

/-- C3.  Every `EwaldState` returned by the Parameter Optimizer stores a
real-vector count and a reciprocal-vector count whose ratio lies within
`[1/convergence, convergence]`, where the stored counts are exactly the
full drains of the generator over the real domain within `r_max(σ)`
(origin included) and over the reciprocal domain within `g_max(σ)`
(origin excluded). -/
theorem optimizer_returns_balanced_counts (ops : FloatOps)
    (pmgReciprocal : Mat3 → Mat3) (structure0 : PmgStructure)
    (dielectricTensor : Mat3) (initialValue : Option ℚ)
    (convergence prodCutoffFwhm : ℚ) (fuel : ℕ) (st : Ewald)
    (h : Ewald.fromOptimization ops pmgReciprocal structure0 dielectricTensor
      initialValue convergence prodCutoffFwhm fuel = .ok (some st)) :
    (1 / convergence ≤
        (st.numRealLattice : ℚ) / (st.numReciprocalLattice : ℚ) ∧
      (st.numRealLattice : ℚ) / (st.numReciprocalLattice : ℚ) ≤
        convergence) ∧
    st.numRealLattice = (st.generate true 0 false).length ∧
    st.numReciprocalLattice = (st.generate false 0 true).length := by
  unfold Ewald.fromOptimization at h
  have key := fromOptimizationLoop_ok_inv ops pmgReciprocal
    structure0.latticeMatrix (pmgReciprocal structure0.latticeMatrix)
    dielectricTensor convergence prodCutoffFwhm
    (ops.sqrt (det33 dielectricTensor))
    (ops.pow structure0.volume (1 / 3)) fuel _ st h
  obtain ⟨⟨hlo, hhi⟩, hlat, hrec, hP, hnr, hng⟩ := key
  refine ⟨⟨le_of_lt hlo, le_of_lt hhi⟩, ?_, ?_⟩
  · rw [hnr]
    simp [Ewald.generate, Ewald.maxRVectorNorm, hlat, hP]
  · rw [hng]
    simp [Ewald.generate, Ewald.maxGVectorNorm, hrec, hP]

/-- Witness for C3: a run that converges on its first iteration with
counts 27 and 26 inside the band for convergence = 1.05. -/
theorem optimizer_returns_balanced_counts_witness :
    (1 / (21 / 20 : ℚ) ≤
        (ewaldOptimizedB.numRealLattice : ℚ) /
          (ewaldOptimizedB.numReciprocalLattice : ℚ) ∧
      (ewaldOptimizedB.numRealLattice : ℚ) /
          (ewaldOptimizedB.numReciprocalLattice : ℚ) ≤ (21 / 20 : ℚ)) ∧
    ewaldOptimizedB.numRealLattice =
      (ewaldOptimizedB.generate true 0 false).length ∧
    ewaldOptimizedB.numReciprocalLattice =
      (ewaldOptimizedB.generate false 0 true).length :=
  optimizer_returns_balanced_counts floatOpsA pmgReciprocalB structureI3
    latticeI3 (some (25 / 2)) (21 / 20) 25 1 ewaldOptimizedB (by decide)

end Pydefect
